import Mathlib

/-!
# Verification of the rusticsearch query-evaluation core

A shallow embedding of the repository's Rust sources:

* `src/query/ranking.rs` — the ranking evaluator `Query::rank`;
* `src/query/parser/prefix_query.rs` — the prefix-query parser;
* `src/search/query/parser/and_query.rs` — the conjunction parser;
* `src/rusticsearch/analysis/registry.rs` — the analyzer registry;
* `src/search/similarity.rs` — the TF-IDF and BM25 similarity models.

Rust `f64` values are embedded as `F K`: a value of a linear ordered field
(`ℚ` for the ranking evaluator's boosts and scores, `ℝ` for the similarity
formulas) extended with `inf`, `ninf` and `nan`, and the arithmetic used by
the sources (`+`, `*`, `/`, `sqrt`, `log10`, `<`) is given its IEEE-754
semantics on those extra points (exact arithmetic on finite values; the
embedding does not model rounding, and it identifies `-0.0` with `0.0`,
which is sound here because no path of the embedded code distinguishes
them).  This keeps the sources' division-by-zero behaviour observable:
`0.0 / 0.0` is `nan`, `x / 0.0` for `x > 0` is `inf`.
-/

/-- An IEEE-754-style `f64` value over an exact carrier `K`: a finite value,
one of the two infinities, or `nan`. -/
inductive F (K : Type) where
  | fin (x : K)
  | inf
  | ninf
  | nan
  deriving DecidableEq

variable {K : Type} [LinearOrderedField K]

/-- IEEE addition: `nan` propagates, opposite infinities give `nan`. -/
def F.add : F K → F K → F K
  | .nan, _ => .nan
  | _, .nan => .nan
  | .inf, .ninf => .nan
  | .ninf, .inf => .nan
  | .inf, _ => .inf
  | _, .inf => .inf
  | .ninf, _ => .ninf
  | _, .ninf => .ninf
  | .fin a, .fin b => .fin (a + b)

/-- IEEE multiplication: `nan` propagates, `0 * ±inf` is `nan`. -/
def F.mul : F K → F K → F K
  | .nan, _ => .nan
  | _, .nan => .nan
  | .fin a, .inf => if a = 0 then .nan else if 0 < a then .inf else .ninf
  | .fin a, .ninf => if a = 0 then .nan else if 0 < a then .ninf else .inf
  | .inf, .fin b => if b = 0 then .nan else if 0 < b then .inf else .ninf
  | .ninf, .fin b => if b = 0 then .nan else if 0 < b then .ninf else .inf
  | .inf, .inf => .inf
  | .inf, .ninf => .ninf
  | .ninf, .inf => .ninf
  | .ninf, .ninf => .inf
  | .fin a, .fin b => .fin (a * b)

/-- IEEE division: `nan` propagates, `inf / inf` is `nan`, `0 / 0` is `nan`,
`x / 0` for finite `x ≠ 0` is a signed infinity (all zeros here are `+0`,
see the module comment). -/
def F.div : F K → F K → F K
  | .nan, _ => .nan
  | _, .nan => .nan
  | .inf, .inf => .nan
  | .inf, .ninf => .nan
  | .ninf, .inf => .nan
  | .ninf, .ninf => .nan
  | .fin _, .inf => .fin 0
  | .fin _, .ninf => .fin 0
  | .inf, .fin b => if 0 ≤ b then .inf else .ninf
  | .ninf, .fin b => if 0 ≤ b then .ninf else .inf
  | .fin a, .fin b =>
      if b = 0 then (if a = 0 then .nan else if 0 < a then .inf else .ninf)
      else .fin (a / b)

/-- IEEE `<`: any comparison against `nan` is `false`. -/
def F.lt : F K → F K → Bool
  | .nan, _ => false
  | _, .nan => false
  | .ninf, .ninf => false
  | .ninf, _ => true
  | _, .ninf => false
  | .inf, _ => false
  | .fin _, .inf => true
  | .fin a, .fin b => decide (a < b)

theorem F.add_fin (a b : K) : F.add (.fin a) (.fin b) = .fin (a + b) := rfl

theorem F.mul_fin (a b : K) : F.mul (.fin a) (.fin b) = .fin (a * b) := rfl

theorem F.div_fin {b : K} (a : K) (hb : b ≠ 0) :
    F.div (.fin a) (.fin b) = .fin (a / b) := by
  simp [F.div, hb]

theorem F.lt_fin {a b : K} : F.lt (.fin a) (.fin b) = true ↔ a < b := by
  simp [F.lt]

/-! ## Ranking-side data model (`src/query/ranking.rs`)

The `Value`, `TermMatcher` and `Query` enums and the `Document` struct are
declared outside the files under `src/`; their shapes below are read off the
exhaustive matches and constructions in `ranking.rs`.  `Value`'s
constructors beyond `String` and `TSVector` all reach the same `_ => None`
arm of `rank`, so two representative extra kinds are modelled. -/

inductive Value where
  | String (s : String)
  | TSVector (tokens : List String)
  | Boolean (b : Bool)
  | Null
  deriving DecidableEq

inductive TermMatcher where
  | Exact
  | Prefix
  deriving DecidableEq

/-- Modelled from the spec: `TermMatcher::matches` is not under `src/`;
"`Exact` (string equality) or `Prefix` (string-prefix test)", applied as
`matcher.matches(field_value, term)`. -/
def TermMatcher.matches : TermMatcher → String → String → Bool
  | .Exact, field_value, term => field_value == term
  | .Prefix, field_value, term => term.isPrefixOf field_value

/-- A document: a mapping from field name to `Value` (`doc.fields` is a hash
map in the source; association-list lookup models its `get`). -/
structure Document where
  fields : List (String × Value)
  deriving DecidableEq

def Document.get (doc : Document) (field : String) : Option Value :=
  doc.fields.lookup field

/-- The ranking-side `Query` enum, exactly the variants the exhaustive match
in `ranking.rs` handles: `MatchAll`, `MatchNone`, `MatchTerm`, `Bool`
and `DisjunctionMax` (there is no `Conjunction` and no `BoostScore` arm,
and the Rust match has no wildcard, so the enum has no further variants). -/
inductive Query where
  | MatchAll (boost : ℚ)
  | MatchNone
  | MatchTerm (field : String) (value : Value) (matcher : TermMatcher) (boost : ℚ)
  | Bool (must must_not should filter : List Query)
      (minimum_should_match : Int) (boost : ℚ)
  | DisjunctionMax (queries : List Query) (boost : ℚ)

mutual

/-- `Query::rank` from `ranking.rs`, clause for clause.  Scores are `F ℚ`
(exact `f64` values); `none` is Rust's `None`. -/
def Query.rank : Query → Document → Option (F ℚ)
  | .MatchAll boost, _ => some (.fin boost)
  | .MatchNone, _ => none
  | .MatchTerm field value matcher boost, doc =>
      match doc.get field with
      | some (Value.String field_value) =>
          match value with
          | Value.String v =>
              if matcher.matches field_value v then some (.fin boost) else none
          | _ => none
      | some (Value.TSVector field_value) =>
          match value with
          | Value.String v =>
              -- the source counts tokens accepted by the matcher in a loop
              if 0 < (field_value.filter (fun t => matcher.matches t v)).length then
                some (.fin (((field_value.filter
                  (fun t => matcher.matches t v)).length : ℚ) * boost))
              else none
          | _ => none
      | some _ => none
      | none => none
  | .Bool must must_not should filter minimum_should_match boost, doc =>
      if anyMatches must_not doc then none
      else if ¬ allMatch filter doc then none
      else
        match rankMust must doc (.fin 0) with
        | none => none
        | some must_total =>
            -- the should loop continues accumulating into the same total
            if (rankShould should doc (0, must_total)).1 <
                minimum_should_match then none
            else
              some (F.div
                (F.mul (rankShould should doc (0, must_total)).2 (.fin boost))
                (.fin ((must.length + should.length : ℕ) : ℚ)))
  | .DisjunctionMax queries boost, doc =>
      if (rankDisMax queries doc (false, .fin 0)).1 then
        some (F.mul (rankDisMax queries doc (false, .fin 0)).2 (.fin boost))
      else none

/-- The `must_not` loop: return on the first sub-query that matches. -/
def anyMatches : List Query → Document → Bool
  | [], _ => false
  | q :: qs, doc => (q.rank doc).isSome || anyMatches qs doc

/-- The `filter` loop: return on the first sub-query that does not match. -/
def allMatch : List Query → Document → Bool
  | [], _ => true
  | q :: qs, doc => (q.rank doc).isSome && allMatch qs doc

/-- The `must` loop: accumulate every score, abort on a non-match. -/
def rankMust : List Query → Document → F ℚ → Option (F ℚ)
  | [], _, acc => some acc
  | q :: qs, doc, acc =>
      match q.rank doc with
      | some score => rankMust qs doc (F.add acc score)
      | none => none

/-- The `should` loop: count and accumulate the matching sub-queries. -/
def rankShould : List Query → Document → Int × F ℚ → Int × F ℚ
  | [], _, st => st
  | q :: qs, doc, st =>
      match q.rank doc with
      | some score => rankShould qs doc (st.1 + 1, F.add st.2 score)
      | none => rankShould qs doc st

/-- The `DisjunctionMax` loop: track whether anything matched and the
largest score seen (IEEE `>` comparison against the running maximum). -/
def rankDisMax : List Query → Document → Bool × F ℚ → Bool × F ℚ
  | [], _, st => st
  | q :: qs, doc, st =>
      match q.rank doc with
      | some score =>
          rankDisMax qs doc (true, if F.lt st.2 score then score else st.2)
      | none => rankDisMax qs doc st

end

/-- `Query::matches`, derived from `rank` (spec §4.2). -/
def queryMatches (q : Query) (doc : Document) : Bool :=
  (q.rank doc).isSome

/-! ## Parser-side data model

`src/query/parser/prefix_query.rs` and `src/search/query/parser/and_query.rs`
consume `rustc_serialize::json::Json` values.  `Json::Object` is a
`BTreeMap<String, Json>`, modelled as an association list; the source
iterates a `BTreeMap` in ascending key order, so where a claim feeds an
object with several keys the list is written in that order (for the inputs
below the results are order-independent). -/

inductive Json where
  | str (s : String)
  | int (n : Int)
  | float (x : ℚ)
  | bool (b : Bool)
  | null
  | arr (items : List Json)
  | obj (pairs : List (String × Json))

/-- The `QueryParseError` enum (spec §6 lists the full taxonomy; the files
under `src/` construct every variant below). -/
inductive QueryParseError where
  | ExpectedObject
  | ExpectedArray
  | ExpectedObjectOrString
  | ExpectedSingleKey
  | UnrecognisedKey (key : String)
  | ExpectedFloat
  | ExpectedKey (key : String)
  deriving DecidableEq

/-- The parser-side `Term` enum (`search::term::Term` and `term::Term` are
not under `src/`; the parser tests construct `Term::String`). -/
inductive Term where
  | String (s : String)
  | Other (j : Json)

/-- Modelled from the spec: `Term::from_json` is not under `src/`; a search
term has "same shape as Value's leaf kinds (at minimum `String`)", so a JSON
string becomes `Term.String` and any other JSON value is kept opaque. -/
def Term.from_json : Json → Term
  | .str s => .String s
  | j => .Other j

/-- The parser-side `Query` enum (`query::Query` as the parsers build it,
and `search::query::Query` of `and_query.rs`): it is not declared under
`src/`, so only the variants those files construct are modelled, with the
field shapes their constructions and tests show (`MatchTerm` here carries a
`Term` and no boost; `BoostScore` wraps a query). -/
inductive SQuery where
  | MatchTerm (field : String) (term : Term) (matcher : TermMatcher)
  | BoostScore (query : SQuery) (boost : ℚ)
  | Conjunction (queries : List SQuery)

/-- Modelled from the spec: `Query::new_conjunction` is not under `src/`;
it is "a smart constructor building a conjunction from a list of
sub-queries", and the test in `and_query.rs` pins its result to
`Query::Conjunction { queries }`. -/
def SQuery.new_conjunction (queries : List SQuery) : SQuery :=
  .Conjunction queries

/-- Modelled from the spec: `parse_float` (`query::parser::utils`, not under
`src/`) must "coerce from either an integer or floating-point input to a
real number; any other shape → `ExpectedFloat`". -/
def parse_float : Json → Except QueryParseError ℚ
  | .int n => .ok (n : ℚ)
  | .float x => .ok x
  | _ => .error .ExpectedFloat

namespace PrefixQuery

/-- The inner-object loop of `parse` in `prefix_query.rs`: fold the
configuration keys in iteration order, tracking the optional value and the
boost (initially `1.0`); `"value"` and `"prefix"` set the value, `"boost"`
goes through `parse_float`, anything else aborts with `UnrecognisedKey`. -/
def applyConfig : List (String × Json) → Option Json → ℚ →
    Except QueryParseError (Option Json × ℚ)
  | [], value, boost => .ok (value, boost)
  | (key, val) :: rest, value, boost =>
      if key = "value" then applyConfig rest (some val) boost
      else if key = "prefix" then applyConfig rest (some val) boost
      else if key = "boost" then
        match parse_float val with
        | .ok b => applyConfig rest value b
        | .error e => .error e
      else .error (.UnrecognisedKey key)

/-- `parse` from `prefix_query.rs`: a single-key object whose value is
either a shorthand string or a configuration object; builds a
`MatchTerm` with the `Prefix` matcher and wraps it in `BoostScore`
exactly when the boost differs from `1.0`. -/
def parse (json : Json) : Except QueryParseError SQuery :=
  match json with
  | .obj [(field_name, inner)] =>
      match (match inner with
             | .str s => Except.ok (some (Json.str s), (1 : ℚ))
             | .obj inner_pairs => applyConfig inner_pairs none 1
             | _ => Except.error QueryParseError.ExpectedObjectOrString) with
      | .error e => .error e
      | .ok (none, _) => .error (.ExpectedKey "value")
      | .ok (some value, boost) =>
          .ok (if boost ≠ 1 then
                 SQuery.BoostScore
                   (.MatchTerm field_name (Term.from_json value) .Prefix) boost
               else
                 .MatchTerm field_name (Term.from_json value) .Prefix)
  | .obj _ => .error .ExpectedSingleKey
  | _ => .error .ExpectedObject

end PrefixQuery

namespace AndQuery

/-- The sub-clause loop of `parse` in `and_query.rs`: parse every element
through the dispatch entry point, aborting on the first failure. -/
def parseList (parse_query : Json → Except QueryParseError SQuery) :
    List Json → Except QueryParseError (List SQuery)
  | [] => .ok []
  | j :: rest =>
      match parse_query j with
      | .error e => .error e
      | .ok q =>
          match parseList parse_query rest with
          | .error e => .error e
          | .ok qs => .ok (q :: qs)

/-- `parse` from `and_query.rs`.  The shared dispatch entry point
(`search::query::parser::parse`) is not under `src/`, so it is passed in as
the `parse_query` argument. -/
def parse (parse_query : Json → Except QueryParseError SQuery) (json : Json) :
    Except QueryParseError SQuery :=
  match json with
  | .arr filters =>
      match parseList parse_query filters with
      | .error e => .error e
      | .ok sub_queries => .ok (SQuery.new_conjunction sub_queries)
  | _ => .error .ExpectedArray

end AndQuery

/-! ## Analyzer registry (`src/rusticsearch/analysis/registry.rs`)

The three `HashMap`s are modelled as association lists; `insert` conses
(list `lookup` then sees the newest binding, matching `HashMap::insert`
replacement) and `get` is `lookup`. -/

inductive TokenizerSpec where
  | Standard
  deriving DecidableEq

inductive FilterSpec where
  | Lowercase
  | ASCIIFolding
  deriving DecidableEq

structure AnalyzerSpec where
  tokenizer : TokenizerSpec
  filters : List FilterSpec
  deriving DecidableEq

structure AnalyzerRegistry where
  analyzers : List (String × AnalyzerSpec)
  tokenizers : List (String × TokenizerSpec)
  filters : List (String × FilterSpec)

def AnalyzerRegistry.insert (reg : AnalyzerRegistry) (name : String)
    (analyzer : AnalyzerSpec) : AnalyzerRegistry :=
  { reg with analyzers := (name, analyzer) :: reg.analyzers }

def AnalyzerRegistry.insert_tokenizer (reg : AnalyzerRegistry) (name : String)
    (tokenizer : TokenizerSpec) : AnalyzerRegistry :=
  { reg with tokenizers := (name, tokenizer) :: reg.tokenizers }

def AnalyzerRegistry.insert_filter (reg : AnalyzerRegistry) (name : String)
    (filter : FilterSpec) : AnalyzerRegistry :=
  { reg with filters := (name, filter) :: reg.filters }

/-- The registry's `get` (via its `Deref` to the analyzers map). -/
def AnalyzerRegistry.get (reg : AnalyzerRegistry) (name : String) :
    Option AnalyzerSpec :=
  reg.analyzers.lookup name

/-- `AnalyzerRegistry::new`: empty maps seeded with the built-in
`"standard"` tokenizer, `"asciifolding"` and `"lowercase"` filters, and
the `"standard"` analyzer. -/
def AnalyzerRegistry.new : AnalyzerRegistry :=
  (((({ analyzers := [], tokenizers := [], filters := [] } :
      AnalyzerRegistry).insert_tokenizer "standard" .Standard
      ).insert_filter "asciifolding" .ASCIIFolding
      ).insert_filter "lowercase" .Lowercase
      ).insert "standard" ⟨.Standard, [.Lowercase, .ASCIIFolding]⟩

/-- `get_default_analyzer`: the registered `"default"` analyzer, else the
hard-coded standard analyzer. -/
def AnalyzerRegistry.get_default_analyzer (reg : AnalyzerRegistry) :
    AnalyzerSpec :=
  match reg.get "default" with
  | some analyzer => analyzer
  | none => ⟨TokenizerSpec.Standard, [FilterSpec.Lowercase, FilterSpec.ASCIIFolding]⟩

/-- `get_default_index_analyzer`: the registered `"default_index"`
analyzer, else the default analyzer. -/
def AnalyzerRegistry.get_default_index_analyzer (reg : AnalyzerRegistry) :
    AnalyzerSpec :=
  match reg.get "default_index" with
  | some analyzer => analyzer
  | none => reg.get_default_analyzer

/-- `get_default_search_analyzer`: the registered `"default_search"`
analyzer, else the default analyzer. -/
def AnalyzerRegistry.get_default_search_analyzer (reg : AnalyzerRegistry) :
    AnalyzerSpec :=
  match reg.get "default_search" with
  | some analyzer => analyzer
  | none => reg.get_default_analyzer

/-! ## Similarity models (`src/search/similarity.rs`)

`tf`, `idf` and `SimilarityModel::score` over `F ℝ`.  The Rust code takes
`u32`/`u64` statistics and `f64` parameters; casts of the integer inputs
are always finite, while `log`, `sqrt` and the divisions follow the IEEE
rules of `F`. -/

/-- IEEE square root: negative finite inputs give `nan`, `sqrt(+0) = +0`. -/
noncomputable def F.sqrt : F ℝ → F ℝ
  | .fin a => if a < 0 then .nan else .fin (Real.sqrt a)
  | .inf => .inf
  | .ninf => .nan
  | .nan => .nan

/-- IEEE base-10 logarithm (Rust's `f64::log(self, 10.0)`): `log(0) = -inf`,
negative inputs give `nan`. -/
noncomputable def F.log10 : F ℝ → F ℝ
  | .fin a => if a < 0 then .nan else if a = 0 then .ninf else .fin (Real.logb 10 a)
  | .inf => .inf
  | .ninf => .nan
  | .nan => .nan

inductive SimilarityModel where
  | TF_IDF
  | BM25 (k1 : ℝ) (b : ℝ)

/-- `tf(term_frequency) = log10(term_frequency) + 1.0` from `similarity.rs`. -/
noncomputable def tf (term_frequency : ℕ) : F ℝ :=
  F.add (F.log10 (.fin (term_frequency : ℝ))) (.fin 1)

/-- `idf(term_docs, total_docs) = log10((total_docs + 1) / (term_docs + 1)) + 1.0`
from `similarity.rs`. -/
noncomputable def idf (term_docs total_docs : ℕ) : F ℝ :=
  F.add (F.log10 (F.div (.fin ((total_docs : ℝ) + 1)) (.fin ((term_docs : ℝ) + 1))))
    (.fin 1)

/-- `SimilarityModel::score` from `similarity.rs`, operation for operation;
in the BM25 arm `average_length = total_tokens / total_docs` and the length
normalization is `(1 - b) + b * sqrt(length) / sqrt(average_length)` (the
Rust expression `b * (length as f64).sqrt() / average_length.sqrt()` groups
as `(b * sqrt(length)) / sqrt(average_length)`). -/
noncomputable def SimilarityModel.score (model : SimilarityModel)
    (term_frequency length total_tokens total_docs total_docs_with_term : ℕ) :
    F ℝ :=
  match model with
  | .TF_IDF => F.mul (tf term_frequency) (idf total_docs_with_term total_docs)
  | .BM25 k1 b =>
      F.mul
        (F.mul (idf total_docs_with_term total_docs) (.fin (k1 + 1)))
        (F.div (tf term_frequency)
          (F.add (tf term_frequency)
            (F.mul (.fin k1)
              (F.add (.fin (1 - b))
                (F.div (F.mul (.fin b) (F.sqrt (.fin (length : ℝ))))
                  (F.sqrt (F.div (.fin (total_tokens : ℝ))
                    (.fin (total_docs : ℝ)))))))))

/-! ## Helper lemmas -/

theorem F.sqrt_fin {a : ℝ} (h : 0 ≤ a) : F.sqrt (.fin a) = .fin (Real.sqrt a) := by
  simp [F.sqrt, not_lt.mpr h]

theorem tf_fin {n : ℕ} (h : 1 ≤ n) : tf n = .fin (Real.logb 10 (n : ℝ) + 1) := by
  have h0 : (0 : ℝ) < (n : ℝ) := by exact_mod_cast Nat.lt_of_lt_of_le Nat.zero_lt_one h
  simp [tf, F.log10, F.add, not_lt.mpr h0.le, h0.ne.symm]

theorem tf_pos {n : ℕ} (h : 1 ≤ n) : 0 < Real.logb 10 (n : ℝ) + 1 := by
  have h1 : (1 : ℝ) ≤ (n : ℝ) := by exact_mod_cast h
  have := Real.logb_nonneg (by norm_num : (1 : ℝ) < 10) h1
  linarith

theorem tf_lt {m n : ℕ} (hm : 1 ≤ m) (h : m < n) :
    Real.logb 10 (m : ℝ) + 1 < Real.logb 10 (n : ℝ) + 1 := by
  have h0 : (0 : ℝ) < (m : ℝ) := by exact_mod_cast Nat.lt_of_lt_of_le Nat.zero_lt_one hm
  have h1 : (m : ℝ) < (n : ℝ) := by exact_mod_cast h
  have := Real.logb_lt_logb (by norm_num : (1 : ℝ) < 10) h0 h1
  linarith

theorem idf_fin (td D : ℕ) :
    idf td D = .fin (Real.logb 10 (((D : ℝ) + 1) / ((td : ℝ) + 1)) + 1) := by
  have htd : ((td : ℝ) + 1) ≠ 0 := by positivity
  have hpos : (0 : ℝ) < ((D : ℝ) + 1) / ((td : ℝ) + 1) := by positivity
  simp [idf, F.log10, F.div, F.add, htd, not_lt.mpr hpos.le, hpos.ne.symm]

theorem idf_pos {td D : ℕ} (h : td ≤ D) :
    0 < Real.logb 10 (((D : ℝ) + 1) / ((td : ℝ) + 1)) + 1 := by
  have h1 : (1 : ℝ) ≤ ((D : ℝ) + 1) / ((td : ℝ) + 1) := by
    rw [le_div_iff₀ (by positivity)]
    have : (td : ℝ) ≤ (D : ℝ) := by exact_mod_cast h
    linarith
  have := Real.logb_nonneg (by norm_num : (1 : ℝ) < 10) h1
  linarith

theorem idf_lt {td1 td2 : ℕ} (D : ℕ) (h : td1 < td2) :
    Real.logb 10 (((D : ℝ) + 1) / ((td2 : ℝ) + 1)) + 1 <
      Real.logb 10 (((D : ℝ) + 1) / ((td1 : ℝ) + 1)) + 1 := by
  have hcast : ((td1 : ℝ) + 1) < ((td2 : ℝ) + 1) := by
    have : (td1 : ℝ) < (td2 : ℝ) := by exact_mod_cast h
    linarith
  have hlt : ((D : ℝ) + 1) / ((td2 : ℝ) + 1) < ((D : ℝ) + 1) / ((td1 : ℝ) + 1) :=
    div_lt_div_of_pos_left (by positivity) (by positivity) hcast
  have := Real.logb_lt_logb (by norm_num : (1 : ℝ) < 10) (by positivity) hlt
  linarith

/-- The real number the BM25 score reduces to when every intermediate
`f64` value is finite (established by `bm25_fin`). -/
noncomputable def bm25R (k1 b : ℝ)
    (term_frequency length total_tokens total_docs total_docs_with_term : ℕ) : ℝ :=
  (Real.logb 10 (((total_docs : ℝ) + 1) / ((total_docs_with_term : ℝ) + 1)) + 1) *
    (k1 + 1) *
    ((Real.logb 10 (term_frequency : ℝ) + 1) /
      ((Real.logb 10 (term_frequency : ℝ) + 1) +
        k1 * ((1 - b) + b * Real.sqrt (length : ℝ) /
          Real.sqrt ((total_tokens : ℝ) / (total_docs : ℝ)))))

theorem bm25_fin {k1 b : ℝ} {tf_ D T : ℕ} (l td : ℕ) (htf : 1 ≤ tf_)
    (hD : 1 ≤ D) (hT : 1 ≤ T) (hk1 : 0 ≤ k1) (hb0 : 0 ≤ b) (hb1 : b ≤ 1) :
    SimilarityModel.score (.BM25 k1 b) tf_ l T D td =
      .fin (bm25R k1 b tf_ l T D td) := by
  have hDpos : (0 : ℝ) < (D : ℝ) := by exact_mod_cast Nat.lt_of_lt_of_le Nat.zero_lt_one hD
  have hTpos : (0 : ℝ) < (T : ℝ) := by exact_mod_cast Nat.lt_of_lt_of_le Nat.zero_lt_one hT
  have havg : (0 : ℝ) < (T : ℝ) / (D : ℝ) := by positivity
  have hsq : (0 : ℝ) < Real.sqrt ((T : ℝ) / (D : ℝ)) := Real.sqrt_pos.mpr havg
  have ht := tf_pos htf
  have hC : (0 : ℝ) ≤ (1 - b) + b * Real.sqrt (l : ℝ) / Real.sqrt ((T : ℝ) / (D : ℝ)) := by
    have : (0 : ℝ) ≤ b * Real.sqrt (l : ℝ) / Real.sqrt ((T : ℝ) / (D : ℝ)) := by positivity
    linarith
  have hden : (Real.logb 10 (tf_ : ℝ) + 1) +
      k1 * ((1 - b) + b * Real.sqrt (l : ℝ) / Real.sqrt ((T : ℝ) / (D : ℝ))) ≠ 0 := by
    have := mul_nonneg hk1 hC
    positivity
  rw [SimilarityModel.score, tf_fin htf, idf_fin]
  rw [F.div_fin _ hDpos.ne.symm, F.sqrt_fin havg.le, F.sqrt_fin (Nat.cast_nonneg l)]
  simp only [F.mul_fin, F.add_fin]
  rw [F.div_fin _ hsq.ne.symm]
  simp only [F.mul_fin, F.add_fin]
  rw [F.div_fin _ hden]
  simp only [F.mul_fin, bm25R]

theorem tfidf_fin {tf_ : ℕ} (l T D td : ℕ) (htf : 1 ≤ tf_) :
    SimilarityModel.score .TF_IDF tf_ l T D td =
      .fin ((Real.logb 10 (tf_ : ℝ) + 1) *
        (Real.logb 10 (((D : ℝ) + 1) / ((td : ℝ) + 1)) + 1)) := by
  rw [SimilarityModel.score, tf_fin htf, idf_fin, F.mul_fin]

theorem frac_lt_frac {t1 t2 c : ℝ} (h1 : 0 < t1) (hlt : t1 < t2) (hc : 0 < c) :
    t1 / (t1 + c) < t2 / (t2 + c) := by
  rw [div_lt_div_iff₀ (by linarith) (by linarith)]
  nlinarith

theorem AndQuery.parseList_append_error
    (parse_query : Json → Except QueryParseError SQuery) (j : Json)
    (e : QueryParseError) :
    ∀ xs ys, (∀ x ∈ xs, ∃ q, parse_query x = .ok q) → parse_query j = .error e →
      AndQuery.parseList parse_query (xs ++ j :: ys) = .error e
  | [], ys, _, hj => by simp [AndQuery.parseList, hj]
  | x :: xs, ys, hx, hj => by
      obtain ⟨q, hq⟩ := hx x (by simp)
      simp [AndQuery.parseList, hq,
        AndQuery.parseList_append_error parse_query j e xs ys
          (fun y hy => hx y (by simp [hy])) hj]

/-! ## The claims -/

/-- C1: the claim states that `rank` on a `Bool` query with empty `must` and
`should` (and no rejecting `must_not`/`filter`, `minimum_should_match ≤ 0`)
returns `Some(boost)` as an explicit special case.  The code has no such
special case: it reaches the averaging formula
`(total_score * boost) / (must.len() + should.len())`, that is
`(0.0 * boost) / 0.0 = NaN`, so it returns `Some(NaN)` for every document
and every boost — never `Some(boost)`. -/
theorem C1_empty_bool_rank_is_nan (doc : Document) (boost : ℚ)
    (minimum_should_match : Int) (h : minimum_should_match ≤ 0) :
    Query.rank (.Bool [] [] [] [] minimum_should_match boost) doc = some F.nan := by
  have h0 : ¬ ((0 : Int) < minimum_should_match) := not_lt.mpr h
  simp [Query.rank, anyMatches, allMatch, rankMust, rankShould, h0, F.mul, F.div]

/-- C1, witness: the empty `Bool` query with boost `2.0` scores `NaN` (not
`Some(2.0)`) against the empty document. -/
theorem C1_empty_bool_rank_is_nan_witness :
    Query.rank (.Bool [] [] [] [] 0 2) ⟨[]⟩ = some F.nan :=
  C1_empty_bool_rank_is_nan ⟨[]⟩ 2 0 (le_refl 0)

/-- C2: the claim states that ranking `Conjunction{queries}` equals ranking
`Bool{must: queries}`, with the score on a match being the *sum* of the
sub-scores.  The ranking-side `Query` enum has no `Conjunction` variant at
all (see the `Query` declaration above, read off the exhaustive match in
`ranking.rs`), and the `Bool` must-scoring is not a sum: a `Bool` whose two
`must` clauses are `MatchAll{1.0}` scores `(1.0 + 1.0) * 1.0 / 2 = 1.0`,
the average, not the sum `2.0`. -/
theorem C2_bool_must_scores_average_not_sum :
    Query.rank (.Bool [.MatchAll 1, .MatchAll 1] [] [] [] 0 1) ⟨[]⟩ =
      some (.fin 1) ∧ (F.fin 1 : F ℚ) ≠ .fin 2 := by
  constructor
  · simp [Query.rank, anyMatches, allMatch, rankMust, rankShould, F.add, F.mul, F.div]
  · decide

/-- C3: the claim states that `SimilarityModel::score` with `total_docs = 0`
returns an explicitly guarded, well-defined result.  The code has no guard:
the BM25 arm computes `average_length = total_tokens / total_docs`
unconditionally, and at `total_docs = 0`, `total_tokens = 0` (the corpus
statistics of an empty index) this is `0.0 / 0.0 = NaN`, which propagates
to the returned score (shown here at `k1 = 1.2 = 6/5`, `b = 0.75 = 3/4`,
the parameters of the source's own tests). -/
theorem C3_bm25_zero_docs_score_is_nan :
    SimilarityModel.score (.BM25 (6/5) (3/4)) 1 40 0 0 0 = F.nan := by
  norm_num [SimilarityModel.score, tf, idf, F.add, F.mul, F.div, F.sqrt, F.log10]

/-- C4, counterexample: with `k1 = 0` — a valid input under the claim's
constraints (`term_frequency ≥ 1`, `docs_with_term ≤ total_docs`,
`total_docs ≥ 1`, `k1 ≥ 0`, `0 ≤ b ≤ 1`) — the BM25 score is *constant* in
`term_frequency`: the saturation term reduces to `tf / (tf + 0) = 1`, so
raising `term_frequency` from 1 to 2 leaves the score unchanged and the
claimed strict increase fails. -/
theorem C4_bm25_k1_zero_counterexample :
    SimilarityModel.score (.BM25 0 (3/4)) 2 40 100 10 5 =
      SimilarityModel.score (.BM25 0 (3/4)) 1 40 100 10 5 ∧
    F.lt (SimilarityModel.score (.BM25 0 (3/4)) 1 40 100 10 5)
      (SimilarityModel.score (.BM25 0 (3/4)) 2 40 100 10 5) = false := by
  have h2 : SimilarityModel.score (.BM25 0 (3/4)) 2 40 100 10 5 =
      .fin (bm25R 0 (3/4) 2 40 100 10 5) :=
    bm25_fin 40 5 (by norm_num) (by norm_num) (by norm_num) le_rfl (by norm_num)
      (by norm_num)
  have h1 : SimilarityModel.score (.BM25 0 (3/4)) 1 40 100 10 5 =
      .fin (bm25R 0 (3/4) 1 40 100 10 5) :=
    bm25_fin 40 5 le_rfl (by norm_num) (by norm_num) le_rfl (by norm_num) (by norm_num)
  have e2 : bm25R 0 (3/4) 2 40 100 10 5 = Real.logb 10 ((10+1)/(5+1)) + 1 := by
    have hlb : (0:ℝ) ≤ Real.logb 10 (2:ℝ) :=
      Real.logb_nonneg (by norm_num) (by norm_num)
    have ht : Real.logb 10 (2:ℝ) + 1 ≠ 0 := by linarith
    simp [bm25R, div_self ht]
  have e1 : bm25R 0 (3/4) 1 40 100 10 5 = Real.logb 10 ((10+1)/(5+1)) + 1 := by
    norm_num [bm25R]
  refine ⟨by rw [h1, h2, e1, e2], ?_⟩
  rw [h1, h2, e1, e2]
  simp [F.lt]

/-- C4, amended: as the counterexample forces, BM25's strict increase in
`term_frequency` additionally needs `k1 > 0` (and, for the normalization
factor to stay finite and positive in the IEEE semantics, `total_tokens ≥ 1`
and `length ≥ 1`); BM25's strict decrease in `docs_with_term` needs
`total_tokens ≥ 1`.  Under the claim's own constraints: the TF-IDF score is
strictly increasing in `term_frequency`, strictly decreasing in
`docs_with_term`, and independent of `length`; under the added constraints
the BM25 score is strictly increasing in `term_frequency` and strictly
decreasing in `docs_with_term`. -/
theorem C4_similarity_monotonicity_amended
    (tf1 tf2 l l2 T D td td1 td2 : ℕ) (k1 b : ℝ) :
    (1 ≤ tf1 → tf1 < tf2 → td ≤ D →
      F.lt (SimilarityModel.score .TF_IDF tf1 l T D td)
        (SimilarityModel.score .TF_IDF tf2 l T D td) = true) ∧
    (1 ≤ tf1 → td1 < td2 →
      F.lt (SimilarityModel.score .TF_IDF tf1 l T D td2)
        (SimilarityModel.score .TF_IDF tf1 l T D td1) = true) ∧
    SimilarityModel.score .TF_IDF tf1 l T D td =
      SimilarityModel.score .TF_IDF tf1 l2 T D td ∧
    (1 ≤ tf1 → tf1 < tf2 → td ≤ D → 1 ≤ D → 1 ≤ T → 1 ≤ l →
      0 < k1 → 0 ≤ b → b ≤ 1 →
      F.lt (SimilarityModel.score (.BM25 k1 b) tf1 l T D td)
        (SimilarityModel.score (.BM25 k1 b) tf2 l T D td) = true) ∧
    (1 ≤ tf1 → td1 < td2 → 1 ≤ D → 1 ≤ T → 0 ≤ k1 → 0 ≤ b → b ≤ 1 →
      F.lt (SimilarityModel.score (.BM25 k1 b) tf1 l T D td2)
        (SimilarityModel.score (.BM25 k1 b) tf1 l T D td1) = true) := by
  refine ⟨?_, ?_, ?_, ?_, ?_⟩
  · intro h1 h2 h3
    rw [tfidf_fin l T D td h1, tfidf_fin l T D td (h1.trans h2.le), F.lt_fin]
    exact mul_lt_mul_of_pos_right (tf_lt h1 h2) (idf_pos h3)
  · intro h1 h2
    rw [tfidf_fin l T D td2 h1, tfidf_fin l T D td1 h1, F.lt_fin]
    exact mul_lt_mul_of_pos_left (idf_lt D h2) (tf_pos h1)
  · rfl
  · intro h1 h2 h3 hD hT hl hk1 hb0 hb1
    rw [bm25_fin l td h1 hD hT hk1.le hb0 hb1,
      bm25_fin l td (h1.trans h2.le) hD hT hk1.le hb0 hb1, F.lt_fin]
    have hDpos : (0 : ℝ) < (D : ℝ) := by
      exact_mod_cast Nat.lt_of_lt_of_le Nat.zero_lt_one hD
    have hTpos : (0 : ℝ) < (T : ℝ) := by
      exact_mod_cast Nat.lt_of_lt_of_le Nat.zero_lt_one hT
    have hlpos : (0 : ℝ) < (l : ℝ) := by
      exact_mod_cast Nat.lt_of_lt_of_le Nat.zero_lt_one hl
    have havg : (0 : ℝ) < (T : ℝ) / (D : ℝ) := by positivity
    have hsq : (0 : ℝ) < Real.sqrt ((T : ℝ) / (D : ℝ)) := Real.sqrt_pos.mpr havg
    have hsl : (0 : ℝ) < Real.sqrt (l : ℝ) := Real.sqrt_pos.mpr hlpos
    have hC : (0 : ℝ) <
        (1 - b) + b * Real.sqrt (l : ℝ) / Real.sqrt ((T : ℝ) / (D : ℝ)) := by
      rcases eq_or_lt_of_le hb0 with hb | hb
      · rw [← hb]; norm_num
      · have : (0 : ℝ) < b * Real.sqrt (l : ℝ) / Real.sqrt ((T : ℝ) / (D : ℝ)) :=
          div_pos (mul_pos hb hsl) hsq
        linarith
    unfold bm25R
    exact mul_lt_mul_of_pos_left
      (frac_lt_frac (tf_pos h1) (tf_lt h1 h2) (mul_pos hk1 hC))
      (mul_pos (idf_pos h3) (by linarith : (0 : ℝ) < k1 + 1))
  · intro h1 h2 hD hT hk1 hb0 hb1
    rw [bm25_fin l td2 h1 hD hT hk1 hb0 hb1,
      bm25_fin l td1 h1 hD hT hk1 hb0 hb1, F.lt_fin]
    have hC0 : (0 : ℝ) ≤
        (1 - b) + b * Real.sqrt (l : ℝ) / Real.sqrt ((T : ℝ) / (D : ℝ)) := by
      have : (0 : ℝ) ≤ b * Real.sqrt (l : ℝ) / Real.sqrt ((T : ℝ) / (D : ℝ)) :=
        div_nonneg (mul_nonneg hb0 (Real.sqrt_nonneg _)) (Real.sqrt_nonneg _)
      linarith
    have hden : (0 : ℝ) < (Real.logb 10 (tf1 : ℝ) + 1) +
        k1 * ((1 - b) + b * Real.sqrt (l : ℝ) / Real.sqrt ((T : ℝ) / (D : ℝ))) := by
      have := mul_nonneg hk1 hC0
      have := tf_pos h1
      linarith
    unfold bm25R
    exact mul_lt_mul_of_pos_right
      (mul_lt_mul_of_pos_right (idf_lt D h2) (by linarith : (0 : ℝ) < k1 + 1))
      (div_pos (tf_pos h1) hden)

/-- C5: for a `MatchTerm` query with a `String` term: an absent field does
not match; a `String` field matches iff the matcher accepts it, scoring
`boost`; a `TSVector` field scores `count * boost` where `count` is the
number of tokens the matcher accepts, and does not match when `count = 0`;
any other field kind (here `Boolean` and `Null`) is a silent non-match. -/
theorem C5_match_term_string_term_cases (doc : Document) (field v : String)
    (matcher : TermMatcher) (boost : ℚ) :
    (doc.get field = none →
      Query.rank (.MatchTerm field (.String v) matcher boost) doc = none) ∧
    (∀ s, doc.get field = some (.String s) →
      Query.rank (.MatchTerm field (.String v) matcher boost) doc =
        if matcher.matches s v then some (.fin boost) else none) ∧
    (∀ tokens, doc.get field = some (.TSVector tokens) →
      Query.rank (.MatchTerm field (.String v) matcher boost) doc =
        if 0 < (tokens.filter (fun t => matcher.matches t v)).length then
          some (.fin (((tokens.filter (fun t => matcher.matches t v)).length : ℚ)
            * boost))
        else none) ∧
    (∀ b, doc.get field = some (.Boolean b) →
      Query.rank (.MatchTerm field (.String v) matcher boost) doc = none) ∧
    (doc.get field = some .Null →
      Query.rank (.MatchTerm field (.String v) matcher boost) doc = none) := by
  refine ⟨fun h => ?_, fun s h => ?_, fun tokens h => ?_, fun b h => ?_, fun h => ?_⟩ <;>
    simp [Query.rank, h]

/-- C6: the parser error taxonomy of the prefix parser — non-object input
gives `ExpectedObject`, two or more top-level keys give `ExpectedSingleKey`,
an inner key other than `value`/`prefix`/`boost` gives `UnrecognisedKey`, a
clause object with no value key gives `ExpectedKey "value"` (also when a
boost is present), a boost that is neither integer nor float gives
`ExpectedFloat` — and of the conjunction parser: non-array input gives
`ExpectedArray`, and the first failing sub-parse aborts the whole parse
with its error (no partial tree). -/
theorem C6_parser_error_taxonomy
    (parse_query : Json → Except QueryParseError SQuery)
    (j v : Json) (f k : String) :
    ((∀ pairs, j ≠ .obj pairs) → PrefixQuery.parse j = .error .ExpectedObject) ∧
    (∀ pairs, 2 ≤ pairs.length →
      PrefixQuery.parse (.obj pairs) = .error .ExpectedSingleKey) ∧
    (k ≠ "value" → k ≠ "prefix" → k ≠ "boost" →
      PrefixQuery.parse (.obj [(f, .obj [(k, v)])]) =
        .error (.UnrecognisedKey k)) ∧
    (PrefixQuery.parse (.obj [(f, .obj [])]) = .error (.ExpectedKey "value")) ∧
    (PrefixQuery.parse (.obj [(f, .obj [("boost", .float 2)])]) =
      .error (.ExpectedKey "value")) ∧
    ((∀ n, v ≠ .int n) → (∀ x, v ≠ .float x) →
      PrefixQuery.parse (.obj [(f, .obj [("boost", v)])]) =
        .error .ExpectedFloat) ∧
    ((∀ items, j ≠ .arr items) →
      AndQuery.parse parse_query j = .error .ExpectedArray) ∧
    (∀ xs ys e, (∀ x ∈ xs, ∃ q, parse_query x = .ok q) → parse_query j = .error e →
      AndQuery.parse parse_query (.arr (xs ++ j :: ys)) = .error e) := by
  refine ⟨?_, ?_, ?_, ?_, ?_, ?_, ?_, ?_⟩
  · intro h
    cases j <;> first
      | exact absurd rfl (h _)
      | simp [PrefixQuery.parse]
  · intro pairs hlen
    match pairs, hlen with
    | p :: q :: rest, _ => simp [PrefixQuery.parse]
  · intro h1 h2 h3
    simp [PrefixQuery.parse, PrefixQuery.applyConfig, h1, h2, h3]
  · simp [PrefixQuery.parse, PrefixQuery.applyConfig]
  · simp [PrefixQuery.parse, PrefixQuery.applyConfig, parse_float]
  · intro h1 h2
    cases v <;> first
      | exact absurd rfl (h1 _)
      | exact absurd rfl (h2 _)
      | simp [PrefixQuery.parse, PrefixQuery.applyConfig, parse_float]
  · intro h
    cases j <;> first
      | exact absurd rfl (h _)
      | simp [AndQuery.parse]
  · intro xs ys e hxs hj
    simp [AndQuery.parse,
      AndQuery.parseList_append_error parse_query j e xs ys hxs hj]

/-- C7: the shorthand clause `{f: "v"}` and the full form
`{f: {"value": "v"}}` parse to the identical bare `MatchTerm` node with the
`Prefix` matcher. -/
theorem C7_shorthand_and_full_form_agree (f v : String) :
    PrefixQuery.parse (.obj [(f, .str v)]) =
        .ok (.MatchTerm f (.String v) .Prefix) ∧
    PrefixQuery.parse (.obj [(f, .obj [("value", .str v)])]) =
        .ok (.MatchTerm f (.String v) .Prefix) := by
  constructor <;> simp [PrefixQuery.parse, PrefixQuery.applyConfig, Term.from_json]

/-- C8: parsing `{"foo": {"value": "bar", "boost": 2}}` (in both iteration
orders of the inner object; a `BTreeMap` iterates `"boost"` before
`"value"`) yields `BoostScore{boost: 2.0, query: MatchTerm{field: "foo",
term: "bar", matcher: Prefix}}` with the integer boost coerced to a float,
while a boost equal to `1.0`, or an omitted boost, yields the bare
`MatchTerm` with no wrapper. -/
theorem C8_integer_boost_wraps_boost_score :
    PrefixQuery.parse
        (.obj [("foo", .obj [("boost", .int 2), ("value", .str "bar")])]) =
      .ok (.BoostScore (.MatchTerm "foo" (.String "bar") .Prefix) 2) ∧
    PrefixQuery.parse
        (.obj [("foo", .obj [("value", .str "bar"), ("boost", .int 2)])]) =
      .ok (.BoostScore (.MatchTerm "foo" (.String "bar") .Prefix) 2) ∧
    (∀ f v, PrefixQuery.parse
        (.obj [(f, .obj [("boost", .float 1), ("value", .str v)])]) =
      .ok (.MatchTerm f (.String v) .Prefix)) ∧
    (∀ f v, PrefixQuery.parse (.obj [(f, .obj [("value", .str v)])]) =
      .ok (.MatchTerm f (.String v) .Prefix)) := by
  refine ⟨?_, ?_, ?_, ?_⟩ <;>
    simp [PrefixQuery.parse, PrefixQuery.applyConfig, parse_float, Term.from_json]

/-- C9: default-analyzer resolution is a three-tier fallback, per phase:
a registered `"default_index"` (resp. `"default_search"`) analyzer wins;
else a registered `"default"` analyzer; else the hard-coded standard
analyzer (standard tokenizer, then lowercase and asciifolding filters);
and on a freshly constructed registry both defaults are the standard
analyzer. -/
theorem C9_default_analyzer_three_tier_fallback
    (reg : AnalyzerRegistry) (a : AnalyzerSpec) :
    (reg.get "default_index" = some a → reg.get_default_index_analyzer = a) ∧
    (reg.get "default_index" = none → reg.get "default" = some a →
      reg.get_default_index_analyzer = a) ∧
    (reg.get "default_index" = none → reg.get "default" = none →
      reg.get_default_index_analyzer = ⟨.Standard, [.Lowercase, .ASCIIFolding]⟩) ∧
    (reg.get "default_search" = some a → reg.get_default_search_analyzer = a) ∧
    (reg.get "default_search" = none → reg.get "default" = some a →
      reg.get_default_search_analyzer = a) ∧
    (reg.get "default_search" = none → reg.get "default" = none →
      reg.get_default_search_analyzer = ⟨.Standard, [.Lowercase, .ASCIIFolding]⟩) ∧
    AnalyzerRegistry.new.get_default_index_analyzer =
        ⟨.Standard, [.Lowercase, .ASCIIFolding]⟩ ∧
    AnalyzerRegistry.new.get_default_search_analyzer =
        ⟨.Standard, [.Lowercase, .ASCIIFolding]⟩ := by
  refine ⟨fun h => ?_, fun h1 h2 => ?_, fun h1 h2 => ?_, fun h => ?_,
    fun h1 h2 => ?_, fun h1 h2 => ?_, ?_, ?_⟩ <;>
    simp only [AnalyzerRegistry.get_default_index_analyzer,
      AnalyzerRegistry.get_default_search_analyzer,
      AnalyzerRegistry.get_default_analyzer, *] <;>
    simp [AnalyzerRegistry.new, AnalyzerRegistry.insert,
      AnalyzerRegistry.insert_tokenizer, AnalyzerRegistry.insert_filter,
      AnalyzerRegistry.get, List.lookup]

/-- C10: a `MatchTerm` query whose term is not a `String` value never
matches any document — whatever value the field holds, including `String`
and `TSVector` field values — and never faults. -/
theorem C10_non_string_term_never_matches (doc : Document) (field : String)
    (value : Value) (matcher : TermMatcher) (boost : ℚ)
    (h : ∀ s, value ≠ .String s) :
    Query.rank (.MatchTerm field value matcher boost) doc = none := by
  cases hv : doc.get field with
  | none => simp [Query.rank, hv]
  | some w =>
      cases w <;> cases value <;> simp [Query.rank, hv] <;> exact absurd rfl (h _)

/-- C10, witness: a `MatchTerm` on field `"f"` whose term is the TSVector
`["x"]` does not match a document whose `"f"` field is the string `"x"`. -/
theorem C10_non_string_term_never_matches_witness :
    Query.rank (.MatchTerm "f" (.TSVector ["x"]) .Exact 1)
      ⟨[("f", .String "x")]⟩ = none :=
  C10_non_string_term_never_matches _ _ _ _ _ (fun _ h => Value.noConfusion h)
